import Mathlib

/-!
Verification of the netview session-scoped log aggregation pipeline.

This file gives a shallow embedding of the server-side session store
(`packages/server/src/store.ts`), the server-side fetch interceptor
(`packages/server/src/interceptor.ts`), the SSE streaming endpoint
(`packages/server/src/stream.ts`) and the client aggregator's server-stream
handler (`src/content/index.tsx`), and proves the spec's claims about them.
-/

namespace NetView

/-- One captured server-side request/response record (`ServerFetchLog` in
`types.ts`).  Timestamps and durations are integer milliseconds; header
records are association lists of name/value pairs. -/
structure ServerFetchLog where
  id : String
  sessionId : String
  timestamp : Nat
  method : String
  url : String
  requestHeaders : List (String × String)
  requestBody : Option String
  status : Nat
  statusText : String
  responseHeaders : List (String × String)
  responseBody : Option String
  duration : Nat
  error : Option String
deriving DecidableEq, Repr

/-- A live listener attached to a session buffer.  `sid` identifies the
callback closure; `received` is the ordered trace of records the callback
has been invoked with. -/
structure Subscriber where
  sid : Nat
  received : List ServerFetchLog
deriving DecidableEq, Repr

/-- `SessionBuffer` from `types.ts`: the per-session bounded log list, the
last-access timestamp, and the attached subscribers.  JS `Set` iterates in
insertion order and every subscription adds a fresh closure, so the
subscriber set is embedded as a list in registration order. -/
structure SessionBuffer where
  logs : List ServerFetchLog
  lastAccess : Nat
  subscribers : List Subscriber
deriving DecidableEq, Repr

/-- The `SessionStore` state from `store.ts`: the session map plus the two
configuration values fixed at construction. -/
structure SessionStore where
  sessions : String → Option SessionBuffer
  maxLogsPerSession : Nat
  ttlMs : Nat

/-- `NetViewOptions` from `types.ts`; all fields optional. -/
structure NetViewOptions where
  maxLogsPerSession : Option Nat := none
  ttlSeconds : Option Nat := none
  debug : Option Bool := none
deriving DecidableEq, Repr

/-- The `SessionStore` constructor: defaults 100 logs per session and a
60-second TTL (stored in milliseconds), with an empty session map. -/
def mkSessionStore (opts : NetViewOptions) : SessionStore :=
  { sessions := fun _ => none
    maxLogsPerSession := opts.maxLogsPerSession.getD 100
    ttlMs := (opts.ttlSeconds.getD 60) * 1000 }

/-- Pointwise update of the session map (`this.sessions.set(sessionId, b)`). -/
def updateSession (f : String → Option SessionBuffer) (k : String)
    (b : SessionBuffer) : String → Option SessionBuffer :=
  fun k' => if k' = k then some b else f k'

/-- The buffer mutation inside `addLog`: `if (logs.length >= max) logs.shift();
logs.push(log)`. -/
def pushBounded (maxN : Nat) (logs : List ServerFetchLog)
    (log : ServerFetchLog) : List ServerFetchLog :=
  (if maxN ≤ logs.length then logs.tail else logs) ++ [log]

/-- The fan-out loop of `addLog`: every current subscriber's callback is
invoked with the new record, in list (= registration) order. -/
def notifyAll (subs : List Subscriber) (log : ServerFetchLog) : List Subscriber :=
  subs.map fun sub => { sub with received := sub.received ++ [log] }

/-- `SessionStore.addLog`: get-or-create the session buffer, refresh
`lastAccess`, evict the oldest entry if at capacity, append, and notify all
subscribers. -/
def addLogStep (s : SessionStore) (now : Nat) (k : String)
    (log : ServerFetchLog) : SessionStore :=
  let b := (s.sessions k).getD { logs := [], lastAccess := now, subscribers := [] }
  let b' : SessionBuffer :=
    { logs := pushBounded s.maxLogsPerSession b.logs log
      lastAccess := now
      subscribers := notifyAll b.subscribers log }
  { s with sessions := updateSession s.sessions k b' }

/-- `SessionStore.subscribe`: get-or-create the session buffer, refresh
`lastAccess`, add the new callback, then synchronously replay every buffered
record (oldest first) to it — so the new subscriber's trace starts as the
buffer contents. -/
def subscribeStep (s : SessionStore) (now : Nat) (k : String) (sid : Nat) :
    SessionStore :=
  let b := (s.sessions k).getD { logs := [], lastAccess := now, subscribers := [] }
  let b' : SessionBuffer :=
    { logs := b.logs
      lastAccess := now
      subscribers := b.subscribers ++ [{ sid := sid, received := b.logs }] }
  { s with sessions := updateSession s.sessions k b' }

/-- The unsubscribe closure returned by `subscribe`: deletes the callback
from the session's subscriber set; a no-op if the session is gone. -/
def unsubStep (s : SessionStore) (k : String) (sid : Nat) : SessionStore :=
  match s.sessions k with
  | none => s
  | some b =>
    let b' : SessionBuffer :=
      { b with subscribers := b.subscribers.filter fun sub => sub.sid != sid }
    { s with sessions := updateSession s.sessions k b' }

/-- One pass of the periodic cleanup in `startCleanup`: every session with
`now - lastAccess > ttlMs` is deleted wholesale. -/
def sweepStep (s : SessionStore) (now : Nat) : SessionStore :=
  { s with sessions := fun k =>
      match s.sessions k with
      | some b => if s.ttlMs < now - b.lastAccess then none else some b
      | none => none }

/-- `SessionStore.getBufferedLogs`: `sessions.get(id)?.logs ?? []`.  Note the
source reads the map directly and does not call `getOrCreateSession`. -/
def getBufferedLogs (s : SessionStore) (k : String) : List ServerFetchLog :=
  match s.sessions k with
  | some b => b.logs
  | none => []

/-- The store operations, as a single event type for traces.  `getLogs`
records a `getBufferedLogs` call (which, per the source, reads without
writing); `sweep` is one cleanup-interval firing. -/
inductive Op
  | addLog (k : String) (log : ServerFetchLog)
  | subscribe (k : String) (sid : Nat)
  | unsub (k : String) (sid : Nat)
  | getLogs (k : String)
  | sweep
deriving DecidableEq, Repr

/-- Single-threaded small-step semantics of the store: each operation runs to
completion at wall-clock time `now` (the event-loop model of §5). -/
def step (s : SessionStore) (now : Nat) : Op → SessionStore
  | Op.addLog k log => addLogStep s now k log
  | Op.subscribe k sid => subscribeStep s now k sid
  | Op.unsub k sid => unsubStep s k sid
  | Op.getLogs _ => s
  | Op.sweep => sweepStep s now

/-- Run a timestamped trace of operations. -/
def runOps (s : SessionStore) : List (Nat × Op) → SessionStore
  | [] => s
  | p :: rest => runOps (step s p.1 p.2) rest

/-- The trace of records delivered to the subscriber identified by `sid` on
session `k`, if that subscriber is attached. -/
def subscriberReceived (s : SessionStore) (k : String) (sid : Nat) :
    Option (List ServerFetchLog) :=
  match s.sessions k with
  | none => none
  | some b => (b.subscribers.find? fun sub => sub.sid == sid).map Subscriber.received

/-- The subscriber identities of session `k` in the order the store's
iteration visits them. -/
def sidList (s : SessionStore) (k : String) : List Nat :=
  (((s.sessions k).map SessionBuffer.subscribers).getD []).map Subscriber.sid

/-! ### Server-side interceptor (`packages/server/src/interceptor.ts`) -/

/-- A thrown JS `Error` value; only its `message` is observed by the
interceptor. -/
structure JsError where
  message : String
deriving DecidableEq, Repr

/-- The execution context `cookies()` runs in: either it yields a cookie jar
or it throws (server code outside a request context). -/
inductive CookieContext
  | available (jar : List (String × String))
  | unavailable
deriving DecidableEq, Repr

/-- First-match cookie lookup, `cookieStore.get(name)?.value ?? null`. -/
def lookupCookie (jar : List (String × String)) (name : String) : Option String :=
  match jar with
  | [] => none
  | (n, v) :: rest => if n = name then some v else lookupCookie rest name

/-- The session cookie name used by both the interceptor and the client. -/
def COOKIE_NAME : String := "__netview_session"

/-- `getSessionId`: read the session cookie; any resolution failure
(`cookies()` throwing) is caught and treated as no session. -/
def getSessionId : CookieContext → Option String
  | CookieContext.unavailable => none
  | CookieContext.available jar => lookupCookie jar COOKIE_NAME

/-- The `input` argument of `fetch`: a raw string, a `URL`, or a `Request`
(carrying its `url`). -/
inductive RequestInput
  | str (s : String)
  | url (u : String)
  | request (requestUrl : String)
deriving DecidableEq, Repr

/-- URL extraction from the fetch input, as in the source's three-way
`typeof`/`instanceof` test. -/
def inputUrl : RequestInput → String
  | RequestInput.str s => s
  | RequestInput.url u => u
  | RequestInput.request r => r

/-- The three accepted header representations of `RequestInit.headers`. -/
inductive HeadersVariant
  | headers (entries : List (String × String))
  | pairs (entries : List (String × String))
  | record (entries : List (String × String))
deriving DecidableEq, Repr

/-- Write one header into a record: later writes of the same name overwrite
in place (platform header semantics). -/
def recordSet (r : List (String × String)) (key value : String) :
    List (String × String) :=
  match r with
  | [] => [(key, value)]
  | (n, v) :: rest =>
    if n = key then (n, value) :: rest else (n, v) :: recordSet rest key value

/-- Fold a list of header entries into a canonical record. -/
def buildRecord (entries : List (String × String)) : List (String × String) :=
  entries.foldl (fun r p => recordSet r p.1 p.2) []

/-- Request-header normalization of the interceptor: `Headers` via
`headersToRecord`, a list of pairs via a loop, a plain object via spread. -/
def normalizeHeaders : Option HeadersVariant → List (String × String)
  | none => []
  | some (HeadersVariant.headers es) => buildRecord es
  | some (HeadersVariant.pairs es) => buildRecord es
  | some (HeadersVariant.record es) => es

/-- The body shapes the interceptor distinguishes.  `formData` carries its
entries; `urlSearchParams` carries the string its `toString()` yields;
`binary` stands for every other body type. -/
inductive BodyVariant
  | str (s : String)
  | formData (entries : List (String × String))
  | urlSearchParams (stringified : String)
  | binary
deriving DecidableEq, Repr

/-- The request-body snapshot of the interceptor.  The source guards with
`if (init?.body)`, so an empty string body (falsy in JS) yields `null`;
a string is kept as-is, a `FormData` becomes the sentinel string
`[FormData]`, a `URLSearchParams` is stringified, and anything else becomes
`[Binary Data]`. -/
def requestBodySnapshot : Option BodyVariant → Option String
  | none => none
  | some (BodyVariant.str s) => if s = "" then none else some s
  | some (BodyVariant.formData _) => some "[FormData]"
  | some (BodyVariant.urlSearchParams q) => some q
  | some BodyVariant.binary => some "[Binary Data]"

/-- The `RequestInit` fields the interceptor inspects. -/
structure RequestInitArg where
  method : Option String := none
  headers : Option HeadersVariant := none
  body : Option BodyVariant := none
deriving DecidableEq, Repr

/-- A settled `Response` as the interceptor observes it. -/
structure FetchResponse where
  status : Nat
  statusText : String
  headers : List (String × String)
deriving DecidableEq, Repr

/-- Outcome of the wrapped primitive: the promise resolves with a response
or rejects with an error. -/
inductive FetchResult
  | success (r : FetchResponse)
  | failure (e : JsError)
deriving DecidableEq, Repr

/-- The ambient facts one interception observes: the cookie context, the
wall-clock times at issuance and settlement, the generated record id, the
wrapped call's outcome, and the result of reading the cloned response body
(`none` models `clone().text()` throwing). -/
structure FetchCtx where
  cookieCtx : CookieContext
  startTime : Nat
  endTime : Nat
  newId : String
  outcome : FetchResult
  cloneText : Option String
deriving DecidableEq, Repr

/-- The unwrapped primitive: calling the saved `originalFetch` directly just
yields the call's outcome. -/
def originalFetch (ctx : FetchCtx) : FetchResult := ctx.outcome

/-- Substring test used for the internal-path guard
(`url.includes('/__netview/')`). -/
def containsSeq (needle : List Char) : List Char → Bool
  | [] => needle.isEmpty
  | c :: rest => needle.isPrefixOf (c :: rest) || containsSeq needle rest

/-- `url.includes('/__netview/')`: internal NetView traffic is never
intercepted. -/
def containsNetviewPath (url : String) : Bool :=
  containsSeq "/__netview/".toList url.toList

/-- The record built on the success path of `netviewFetch`: status line and
headers from the response, body from the non-consuming clone (a sentinel if
the clone read failed). -/
def successLogOf (ctx : FetchCtx) (sessionId : String) (input : RequestInput)
    (rinit : Option RequestInitArg) (resp : FetchResponse) : ServerFetchLog :=
  { id := ctx.newId
    sessionId := sessionId
    timestamp := ctx.startTime
    method := (rinit.bind RequestInitArg.method).getD "GET"
    url := inputUrl input
    requestHeaders := normalizeHeaders (rinit.bind RequestInitArg.headers)
    requestBody := requestBodySnapshot (rinit.bind RequestInitArg.body)
    status := resp.status
    statusText := resp.statusText
    responseHeaders := resp.headers
    responseBody := some (ctx.cloneText.getD "[Unable to read body]")
    duration := ctx.endTime - ctx.startTime
    error := none }

/-- The synthetic record built on the failure path of `netviewFetch`:
status 0, status text `Error`, empty response headers, null body, the
error's message. -/
def errorLogOf (ctx : FetchCtx) (sessionId : String) (input : RequestInput)
    (rinit : Option RequestInitArg) (e : JsError) : ServerFetchLog :=
  { id := ctx.newId
    sessionId := sessionId
    timestamp := ctx.startTime
    method := (rinit.bind RequestInitArg.method).getD "GET"
    url := inputUrl input
    requestHeaders := normalizeHeaders (rinit.bind RequestInitArg.headers)
    requestBody := requestBodySnapshot (rinit.bind RequestInitArg.body)
    status := 0
    statusText := "Error"
    responseHeaders := []
    responseBody := none
    duration := ctx.endTime - ctx.startTime
    error := some e.message }

/-- The wrapped `globalThis.fetch` (`netviewFetch`).  Returns the
caller-visible result, the updated store, and the list of `addLog` calls
made (session key paired with the record), in order.  The source's guard is
the JS-truthiness test `if (!sessionId)`, so both a missing cookie and a
cookie present with an empty value (an empty string is falsy) pass the call
through unobserved. -/
def netviewFetch (ctx : FetchCtx) (store : SessionStore) (input : RequestInput)
    (rinit : Option RequestInitArg) :
    FetchResult × SessionStore × List (String × ServerFetchLog) :=
  match getSessionId ctx.cookieCtx with
  | none => (originalFetch ctx, store, [])
  | some sessionId =>
    if sessionId = "" then (originalFetch ctx, store, [])
    else if containsNetviewPath (inputUrl input) then (originalFetch ctx, store, [])
    else
      match ctx.outcome with
      | FetchResult.success resp =>
        let log := successLogOf ctx sessionId input rinit resp
        (FetchResult.success resp, addLogStep store ctx.endTime sessionId log,
          [(sessionId, log)])
      | FetchResult.failure e =>
        let log := errorLogOf ctx sessionId input rinit e
        (FetchResult.failure e, addLogStep store ctx.endTime sessionId log,
          [(sessionId, log)])

/-! ### Streaming endpoint (`packages/server/src/stream.ts`) -/

/-- The payload of one SSE `data:` frame: a serialized record or the sole
structured error object `\x7berror: "..."\x7d`. -/
inductive FrameData
  | log (l : ServerFetchLog)
  | errorMsg (e : String)
deriving DecidableEq, Repr

/-- One frame on the channel: a `: comment` keep-alive line or a `data:`
frame. -/
inductive Frame
  | comment (s : String)
  | data (d : FrameData)
deriving DecidableEq, Repr

/-- `getStore` from `store.ts`: the module-level singleton; requesting it
before `initStore` throws. -/
def getStore : Option SessionStore → Except String SessionStore
  | none => Except.error "NetView store not initialized. Call registerNetView() first."
  | some st => Except.ok st

/-- What the `GET` handler's `start` callback did: the frames enqueued
synchronously (in order), whether `controller.close()` was called, and the
store state after the `subscribe` call (unchanged if none happened). -/
structure StreamStart where
  frames : List Frame
  closed : Bool
  storeAfter : Option SessionStore

/-- The `GET` handler's observable result: `400` when the `session` query
parameter is missing, otherwise a `200` event stream. -/
inductive StreamResponse
  | badRequest (status : Nat) (body : String)
  | stream (st : StreamStart)

/-- The streaming `GET` endpoint.  `subId` identifies the fresh `send`
closure the handler subscribes with; `now` is the request's wall-clock
time.  The source's guard is the JS-truthiness test `if (!sessionId)`, so
both a missing `session` query parameter and one present with an empty
value (`searchParams.get` returns the empty string, which is falsy) get
the 400 response with no stream.  An uninitialized store makes `getStore`
throw; the `catch` turns that into one structured error frame followed by
`close()` — never an exception escaping to the transport. -/
def streamGET (store? : Option SessionStore) (sessionParam : Option String)
    (now : Nat) (subId : Nat) : StreamResponse :=
  match sessionParam with
  | none => StreamResponse.badRequest 400 "Missing session parameter"
  | some sessionId =>
    if sessionId = "" then StreamResponse.badRequest 400 "Missing session parameter"
    else
    match getStore store? with
    | Except.error _ =>
      StreamResponse.stream
        { frames := [Frame.comment "connected",
                     Frame.data (FrameData.errorMsg "NetView not initialized")]
          closed := true
          storeAfter := store? }
    | Except.ok st =>
      StreamResponse.stream
        { frames := Frame.comment "connected" ::
            (getBufferedLogs st sessionId).map (fun l => Frame.data (FrameData.log l))
          closed := false
          storeAfter := some (subscribeStep st now sessionId subId) }

/-- Count of structured error frames emitted on a channel. -/
def errorFrameCount (frames : List Frame) : Nat :=
  (frames.filter fun f =>
    match f with
    | Frame.data (FrameData.errorMsg _) => true
    | _ => false).length

/-! ### Client aggregator (`src/content/index.tsx`) -/

/-- Which interceptor produced a record. -/
inductive RequestSource
  | client
  | server
deriving DecidableEq, Repr

/-- Lifecycle state of a merged record. -/
inductive RequestState
  | pending
  | completed
  | error
deriving DecidableEq, Repr

/-- Transport kind of a captured call. -/
inductive RequestKind
  | fetch
  | xhr
deriving DecidableEq, Repr

/-- The unified `NetworkRequest` shape of the panel (optional settlement
fields are `Option`). -/
structure NetworkRequest where
  id : String
  timestamp : Nat
  method : String
  url : String
  requestHeaders : List (String × String)
  requestBody : Option String
  status : Option Nat
  statusText : Option String
  responseHeaders : Option (List (String × String))
  responseBody : Option (Option String)
  duration : Option Nat
  type : RequestKind
  source : RequestSource
  state : RequestState
  error : Option String
deriving DecidableEq, Repr

/-- JS truthiness of the decoded frame's `error` field: absent and the empty
string are falsy. -/
def errTruthy : Option String → Bool
  | none => false
  | some s => !(s == "")

/-- Conversion of a decoded server log into the unified record shape, as in
`connectServerStream`: id origin-tagged with a `server-` marker, source
`server`, state from the `error` field's truthiness. -/
def toNetworkRequest (log : ServerFetchLog) : NetworkRequest :=
  { id := "server-" ++ log.id
    timestamp := log.timestamp
    method := log.method
    url := log.url
    requestHeaders := log.requestHeaders
    requestBody := log.requestBody
    status := some log.status
    statusText := some log.statusText
    responseHeaders := some log.responseHeaders
    responseBody := some log.responseBody
    duration := some log.duration
    type := RequestKind.fetch
    source := RequestSource.server
    state := if errTruthy log.error then RequestState.error else RequestState.completed
    error := log.error }

/-- The `onmessage` handler of `connectServerStream` for one decoded frame:
frames with a truthy `error` field are discarded; all others are converted
and appended to the merged collection. -/
def handleServerFrame (requests : List NetworkRequest) (log : ServerFetchLog) :
    List NetworkRequest :=
  if errTruthy log.error then requests
  else requests ++ [toNetworkRequest log]

/-! ### Sample records for concrete evaluations -/

/-- A sample successful record. -/
def logA : ServerFetchLog :=
  { id := "a", sessionId := "s1", timestamp := 0, method := "GET"
    url := "https://api.example/a", requestHeaders := [], requestBody := none
    status := 200, statusText := "OK", responseHeaders := []
    responseBody := some "ok", duration := 5, error := none }

/-- A second sample successful record. -/
def logB : ServerFetchLog :=
  { logA with id := "b", url := "https://api.example/b" }

/-- A third sample successful record. -/
def logC : ServerFetchLog :=
  { logA with id := "c", url := "https://api.example/c" }

/-- A sample failed-call record (error state, as the server interceptor
records it). -/
def logErr : ServerFetchLog :=
  { logA with
    id := "e"
    status := 0
    statusText := "Error"
    responseBody := none
    error := some "boom" }

/-! ### Trace-analysis definitions -/

/-- The subscribers of session `k` (empty if the session is unknown). -/
def subsOf (s : SessionStore) (k : String) : List Subscriber :=
  ((s.sessions k).map SessionBuffer.subscribers).getD []

/-- Trace constraint for following one subscription: the sweep never fires
(which would drop the whole session) and the tracked subscription itself is
neither re-registered nor cancelled.  Everything else — other sessions,
other subscribers, reads — is allowed. -/
def opAllowed (k : String) (sid : Nat) : Op → Bool
  | Op.sweep => false
  | Op.subscribe k' sid' => !(k' == k && sid' == sid)
  | Op.unsub k' sid' => !(k' == k && sid' == sid)
  | Op.addLog _ _ => true
  | Op.getLogs _ => true

/-- The records one operation adds to session `k`. -/
def opDelta (k : String) : Op → List ServerFetchLog
  | Op.addLog k' log => if k' = k then [log] else []
  | _ => []

/-- The records a trace adds to session `k`, in order. -/
def addLogsTo (tr : List (Nat × Op)) (k : String) : List ServerFetchLog :=
  match tr with
  | [] => []
  | p :: rest => opDelta k p.2 ++ addLogsTo rest k

/-- Invariant tying a subscription to its delivery trace: session `k` exists
and every attached subscriber with identity `sid` has received exactly `r`. -/
def SubscriberInv (s : SessionStore) (k : String) (sid : Nat)
    (r : List ServerFetchLog) : Prop :=
  ∃ b, s.sessions k = some b
    ∧ (∃ sub, sub ∈ b.subscribers ∧ sub.sid = sid)
    ∧ (∀ sub, sub ∈ b.subscribers → sub.sid = sid → sub.received = r)

/-- Decidable freshness check: no subscriber with identity `sid` is attached
to session `k` (callbacks are fresh closures, so a new subscription always
has a fresh identity). -/
def noSubscriberWith (s : SessionStore) (k : String) (sid : Nat) : Bool :=
  match s.sessions k with
  | none => true
  | some b => b.subscribers.all fun sub => !(sub.sid == sid)

/-- Does this operation refresh session `k`'s `lastAccess`?  Only `addLog`
and `subscribe` call `getOrCreateSession`; `getBufferedLogs` and the
unsubscribe closure do not. -/
def refreshesAccess (k : String) : Op → Bool
  | Op.addLog k' _ => k' == k
  | Op.subscribe k' _ => k' == k
  | _ => false

/-- Is this operation a cleanup sweep? -/
def isSweep : Op → Bool
  | Op.sweep => true
  | _ => false

/-! ### Helper lemmas about the store semantics -/

theorem updateSession_self (f : String → Option SessionBuffer) (k : String)
    (b : SessionBuffer) : updateSession f k b k = some b := by
  simp [updateSession]

theorem updateSession_ne (f : String → Option SessionBuffer) (k : String)
    (b : SessionBuffer) (k' : String) (h : k' ≠ k) :
    updateSession f k b k' = f k' := by
  simp [updateSession, h]

theorem step_maxLogs (s : SessionStore) (now : Nat) (op : Op) :
    (step s now op).maxLogsPerSession = s.maxLogsPerSession := by
  cases op with
  | addLog k log => rfl
  | subscribe k sid => rfl
  | unsub k sid =>
    unfold step unsubStep
    cases hb : s.sessions k <;> simp [hb]
  | getLogs k => rfl
  | sweep => rfl

theorem step_ttl (s : SessionStore) (now : Nat) (op : Op) :
    (step s now op).ttlMs = s.ttlMs := by
  cases op with
  | addLog k log => rfl
  | subscribe k sid => rfl
  | unsub k sid =>
    unfold step unsubStep
    cases hb : s.sessions k <;> simp [hb]
  | getLogs k => rfl
  | sweep => rfl

theorem runOps_ttl (tr : List (Nat × Op)) : ∀ s : SessionStore,
    (runOps s tr).ttlMs = s.ttlMs := by
  induction tr with
  | nil => intro s; rfl
  | cons p rest ih =>
    intro s
    rw [show runOps s (p :: rest) = runOps (step s p.1 p.2) rest from rfl,
      ih (step s p.1 p.2), step_ttl]

theorem getBufferedLogs_addLog (s : SessionStore) (now : Nat) (k : String)
    (log : ServerFetchLog) :
    getBufferedLogs (step s now (Op.addLog k log)) k
      = pushBounded s.maxLogsPerSession (getBufferedLogs s k) log := by
  unfold getBufferedLogs step addLogStep
  cases hb : s.sessions k <;> simp [hb, updateSession]

theorem subsOf_eq {s : SessionStore} {k : String} {b : SessionBuffer}
    (hb : s.sessions k = some b) : subsOf s k = b.subscribers := by
  simp [subsOf, hb]

theorem addLog_sessions_self (s : SessionStore) (now : Nat) (k : String)
    (log : ServerFetchLog) :
    (step s now (Op.addLog k log)).sessions k
      = some { logs := pushBounded s.maxLogsPerSession (getBufferedLogs s k) log,
               lastAccess := now,
               subscribers := notifyAll (subsOf s k) log } := by
  unfold step addLogStep getBufferedLogs subsOf
  cases hb : s.sessions k <;> simp [hb, updateSession]

theorem addLog_sessions_ne (s : SessionStore) (now : Nat) (k' : String)
    (log : ServerFetchLog) (k : String) (hk : k' ≠ k) :
    (step s now (Op.addLog k' log)).sessions k = s.sessions k := by
  simp only [step, addLogStep]
  exact updateSession_ne _ _ _ _ (fun h => hk h.symm)

theorem subscribe_sessions_self (s : SessionStore) (now : Nat) (k : String)
    (sid : Nat) :
    (step s now (Op.subscribe k sid)).sessions k
      = some { logs := getBufferedLogs s k,
               lastAccess := now,
               subscribers := subsOf s k ++ [{ sid := sid, received := getBufferedLogs s k }] } := by
  unfold step subscribeStep getBufferedLogs subsOf
  cases hb : s.sessions k <;> simp [hb, updateSession]

theorem subscribe_sessions_ne (s : SessionStore) (now : Nat) (k' : String)
    (sid : Nat) (k : String) (hk : k' ≠ k) :
    (step s now (Op.subscribe k' sid)).sessions k = s.sessions k := by
  simp only [step, subscribeStep]
  exact updateSession_ne _ _ _ _ (fun h => hk h.symm)

theorem unsub_sessions_self {s : SessionStore} {k : String} {b : SessionBuffer}
    (now : Nat) (sid' : Nat) (hb : s.sessions k = some b) :
    (step s now (Op.unsub k sid')).sessions k
      = some { b with subscribers := b.subscribers.filter fun sub => sub.sid != sid' } := by
  simp only [step, unsubStep]
  rw [hb]
  exact updateSession_self _ _ _

theorem unsub_sessions_ne (s : SessionStore) (now : Nat) (k' : String)
    (sid' : Nat) (k : String) (hk : k' ≠ k) :
    (step s now (Op.unsub k' sid')).sessions k = s.sessions k := by
  simp only [step, unsubStep]
  cases h2 : s.sessions k' with
  | none => rfl
  | some b2 => exact updateSession_ne _ _ _ _ (fun h => hk h.symm)

theorem sweep_sessions (s : SessionStore) (now : Nat) (k : String) :
    (step s now Op.sweep).sessions k
      = match s.sessions k with
        | some b => if s.ttlMs < now - b.lastAccess then none else some b
        | none => none := rfl

theorem pushBounded_length (maxN : Nat) (l : List ServerFetchLog)
    (x : ServerFetchLog) (hmax : 1 ≤ maxN) (hlen : l.length ≤ maxN) :
    (pushBounded maxN l x).length ≤ maxN := by
  unfold pushBounded
  by_cases h : maxN ≤ l.length
  · have hEq : l.length = maxN := le_antisymm hlen h
    cases l with
    | nil => simp at hEq; omega
    | cons a t =>
      simp only [h, if_pos, List.tail_cons, List.length_append,
        List.length_singleton]
      simp at hEq
      omega
  · simp only [h, if_neg, not_false_iff, List.length_append,
      List.length_singleton]
    omega

theorem pushBounded_drop (maxN : Nat) (l : List ServerFetchLog)
    (x : ServerFetchLog) (r' : List ServerFetchLog) (hmax : 1 ≤ maxN)
    (hlen : l.length ≤ maxN) :
    (pushBounded maxN l x ++ r').drop ((pushBounded maxN l x).length + r'.length - maxN)
      = (l ++ x :: r').drop (l.length + (r'.length + 1) - maxN) := by
  unfold pushBounded
  by_cases h : maxN ≤ l.length
  · have hEq : l.length = maxN := le_antisymm hlen h
    cases l with
    | nil => simp at hEq; omega
    | cons a t =>
      simp only [h, if_pos, List.tail_cons]
      have hlt : t.length + 1 = maxN := by simpa using hEq
      have h1 : (t ++ [x]).length + r'.length - maxN = r'.length := by
        simp; omega
      have h2 : (a :: t).length + (r'.length + 1) - maxN = r'.length + 1 := by
        simp; omega
      rw [h1, h2, List.append_assoc, List.singleton_append, List.cons_append,
        List.drop_succ_cons]
  · simp only [h, if_neg, not_false_iff]
    rw [List.append_assoc, List.singleton_append]
    have h3 : (l ++ [x]).length + r'.length - maxN
        = l.length + (r'.length + 1) - maxN := by
      simp; omega
    rw [h3]

/-- Buffer contents after a run of `addLog` calls to one session: the
initial contents followed by the pushed records, truncated on the left to
the capacity.  Requires a positive capacity. -/
theorem run_addLogs (k : String) :
    ∀ (entries : List (Nat × ServerFetchLog)) (s : SessionStore),
      1 ≤ s.maxLogsPerSession →
      (getBufferedLogs s k).length ≤ s.maxLogsPerSession →
      getBufferedLogs (runOps s (entries.map fun p => (p.1, Op.addLog k p.2))) k
        = (getBufferedLogs s k ++ entries.map Prod.snd).drop
            ((getBufferedLogs s k).length + entries.length - s.maxLogsPerSession) := by
  intro entries
  induction entries with
  | nil =>
    intro s hmax hlen
    simp [runOps, Nat.sub_eq_zero_of_le hlen]
  | cons p rest ih =>
    intro s hmax hlen
    have hstep := getBufferedLogs_addLog s p.1 k p.2
    have hmax' : 1 ≤ (step s p.1 (Op.addLog k p.2)).maxLogsPerSession := by
      rw [step_maxLogs]; exact hmax
    have hlen' : (getBufferedLogs (step s p.1 (Op.addLog k p.2)) k).length
        ≤ (step s p.1 (Op.addLog k p.2)).maxLogsPerSession := by
      rw [step_maxLogs, hstep]
      exact pushBounded_length s.maxLogsPerSession (getBufferedLogs s k) p.2 hmax hlen
    have hrun := ih (step s p.1 (Op.addLog k p.2)) hmax' hlen'
    rw [List.map_cons,
      show runOps s ((p.1, Op.addLog k p.2) :: rest.map fun q => (q.1, Op.addLog k q.2))
        = runOps (step s p.1 (Op.addLog k p.2)) (rest.map fun q => (q.1, Op.addLog k q.2))
        from rfl,
      hrun, hstep, step_maxLogs]
    simp only [List.length_map, List.map_cons, List.length_cons]
    have := pushBounded_drop s.maxLogsPerSession (getBufferedLogs s k) p.2
      (rest.map Prod.snd) hmax hlen
    simp only [List.length_map] at this
    rw [show (getBufferedLogs s k).length + (rest.length + 1)
        = (getBufferedLogs s k).length + rest.length + 1 from by omega] at this ⊢
    exact this

/-! ### Claim C1 — bounded FIFO buffer -/

/-- Claim C1, counterexample: with a configured `maxLogsPerSession` of `0`
(the constructor accepts it: `0 ?? 100` is `0`), a single `addLog` leaves a
buffer of length 1, exceeding the configured maximum — `shift()` on an empty
array is a no-op and `push` still appends, so the claimed bound fails for
this configuration. -/
theorem C1_bounded_buffer_cex :
    (getBufferedLogs
        (step (mkSessionStore { maxLogsPerSession := some 0 }) 0 (Op.addLog "s1" logA))
        "s1").length = 1
    ∧ (mkSessionStore { maxLogsPerSession := some 0 }).maxLogsPerSession = 0
    ∧ ¬ ((1 : Nat) ≤ 0) := by
  refine ⟨by decide, rfl, by decide⟩

/-- Claim C1 (amended: for every positive configured capacity): after any
sequence of `addLog` calls to one session of a freshly constructed store,
the buffer holds exactly the most recent `maxLogsPerSession` records in
call order (all of them while below capacity), and its length never exceeds
the configured maximum — every prefix of the call sequence is itself an
instance of this statement, so the bound holds at every intermediate
state. -/
theorem C1_bounded_buffer_amended (opts : NetViewOptions) (k : String)
    (entries : List (Nat × ServerFetchLog))
    (hmax : 1 ≤ opts.maxLogsPerSession.getD 100) :
    getBufferedLogs
        (runOps (mkSessionStore opts) (entries.map fun p => (p.1, Op.addLog k p.2))) k
      = (entries.map Prod.snd).drop (entries.length - opts.maxLogsPerSession.getD 100)
    ∧ (getBufferedLogs
        (runOps (mkSessionStore opts) (entries.map fun p => (p.1, Op.addLog k p.2))) k).length
      ≤ opts.maxLogsPerSession.getD 100 := by
  have h0 : getBufferedLogs (mkSessionStore opts) k = [] := rfl
  have hm : (mkSessionStore opts).maxLogsPerSession
      = opts.maxLogsPerSession.getD 100 := rfl
  have h := run_addLogs k entries (mkSessionStore opts)
    (by rw [hm]; exact hmax) (by rw [h0]; simp)
  rw [h0, hm] at h
  simp only [List.nil_append, List.length_nil, Nat.zero_add, List.length_map] at h
  refine ⟨h, ?_⟩
  rw [h, List.length_drop, List.length_map]
  omega

/-- Claim C1, witness: the spec's basic-capture scenario — capacity 2, three
`addLog` calls `A`, `B`, `C` to session `s1` leave exactly `[B, C]`. -/
theorem C1_bounded_buffer_witness :
    getBufferedLogs
        (runOps (mkSessionStore { maxLogsPerSession := some 2 })
          [(0, Op.addLog "s1" logA), (1, Op.addLog "s1" logB), (2, Op.addLog "s1" logC)])
        "s1" = [logB, logC] := by
  have h := (C1_bounded_buffer_amended { maxLogsPerSession := some 2 } "s1"
    [(0, logA), (1, logB), (2, logC)] (by decide)).1
  simpa using h

/-! ### Claim C2 — replay before live -/

theorem find?_received (sid : Nat) (r : List ServerFetchLog) :
    ∀ l : List Subscriber,
      (∃ sub, sub ∈ l ∧ sub.sid = sid) →
      (∀ sub, sub ∈ l → sub.sid = sid → sub.received = r) →
      (l.find? fun sub => sub.sid == sid).map Subscriber.received = some r := by
  intro l
  induction l with
  | nil =>
    rintro ⟨sub, hmem, _⟩ _
    cases hmem
  | cons a t ih =>
    intro hex hall
    by_cases ha : a.sid = sid
    · rw [List.find?_cons_of_pos _ (by simp [ha])]
      simp [hall a (List.mem_cons_self a t) ha]
    · rw [List.find?_cons_of_neg _ (by simp [ha])]
      refine ih ?_ ?_
      · obtain ⟨sub, hmem, hsid⟩ := hex
        rcases List.mem_cons.mp hmem with h | h
        · exact absurd (h ▸ hsid) ha
        · exact ⟨sub, h, hsid⟩
      · intro sub hm hs
        exact hall sub (List.mem_cons_of_mem a hm) hs

theorem inv_received {s : SessionStore} {k : String} {sid : Nat}
    {r : List ServerFetchLog} (h : SubscriberInv s k sid r) :
    subscriberReceived s k sid = some r := by
  obtain ⟨b, hb, hex, hall⟩ := h
  unfold subscriberReceived
  rw [hb]
  exact find?_received sid r b.subscribers hex hall

theorem inv_step {s : SessionStore} {k : String} {sid : Nat}
    {r : List ServerFetchLog} (now : Nat) (op : Op)
    (hop : opAllowed k sid op = true) (hinv : SubscriberInv s k sid r) :
    SubscriberInv (step s now op) k sid (r ++ opDelta k op) := by
  obtain ⟨b, hb, ⟨sub0, hmem0, hsid0⟩, hall⟩ := hinv
  cases op with
  | addLog k' log =>
    by_cases hk : k' = k
    · subst hk
      refine ⟨_, addLog_sessions_self s now k' log, ?_, ?_⟩
      · refine ⟨{ sub0 with received := sub0.received ++ [log] }, ?_, hsid0⟩
        simp only [subsOf_eq hb, notifyAll, List.mem_map]
        exact ⟨sub0, hmem0, rfl⟩
      · intro sub hm hs
        simp only [subsOf_eq hb, notifyAll, List.mem_map] at hm
        obtain ⟨sub', hm', rfl⟩ := hm
        simp only at hs
        simp [hall sub' hm' hs, opDelta]
    · refine ⟨b, ?_, ⟨sub0, hmem0, hsid0⟩, ?_⟩
      · rw [addLog_sessions_ne s now k' log k hk]
        exact hb
      · intro sub hm hs
        simp [opDelta, hk]
        exact hall sub hm hs
  | subscribe k' sid' =>
    simp only [opAllowed, Bool.not_eq_true', Bool.and_eq_false_iff] at hop
    by_cases hk : k' = k
    · subst hk
      have hsid' : sid' ≠ sid := by
        rcases hop with h | h
        · simp at h
        · simpa using h
      refine ⟨_, subscribe_sessions_self s now k' sid', ?_, ?_⟩
      · refine ⟨sub0, ?_, hsid0⟩
        simp only [subsOf_eq hb, List.mem_append]
        exact Or.inl hmem0
      · intro sub hm hs
        simp only [subsOf_eq hb, List.mem_append, List.mem_singleton] at hm
        rcases hm with hm | hm
        · simp [opDelta, hall sub hm hs]
        · subst hm; simp only at hs; exact absurd hs hsid'
    · refine ⟨b, ?_, ⟨sub0, hmem0, hsid0⟩, ?_⟩
      · rw [subscribe_sessions_ne s now k' sid' k hk]
        exact hb
      · intro sub hm hs
        simp [opDelta]
        exact hall sub hm hs
  | unsub k' sid' =>
    simp only [opAllowed, Bool.not_eq_true', Bool.and_eq_false_iff] at hop
    by_cases hk : k' = k
    · subst hk
      have hsid' : sid' ≠ sid := by
        rcases hop with h | h
        · simp at h
        · simpa using h
      refine ⟨_, unsub_sessions_self now sid' hb, ?_, ?_⟩
      · refine ⟨sub0, ?_, hsid0⟩
        simp only [List.mem_filter]
        refine ⟨hmem0, ?_⟩
        simp [hsid0]
        exact fun h => hsid' h.symm
      · intro sub hm hs
        simp only [List.mem_filter] at hm
        simp [opDelta, hall sub hm.1 hs]
    · refine ⟨b, ?_, ⟨sub0, hmem0, hsid0⟩, ?_⟩
      · rw [unsub_sessions_ne s now k' sid' k hk]
        exact hb
      · intro sub hm hs
        simp [opDelta]
        exact hall sub hm hs
  | getLogs k' =>
    exact ⟨b, hb, ⟨sub0, hmem0, hsid0⟩, fun sub hm hs => by
      simp [opDelta, hall sub hm hs]⟩
  | sweep => simp [opAllowed] at hop

theorem inv_run (k : String) (sid : Nat) :
    ∀ (tr : List (Nat × Op)) (s : SessionStore) (r : List ServerFetchLog),
      (tr.all fun p => opAllowed k sid p.2) = true →
      SubscriberInv s k sid r →
      SubscriberInv (runOps s tr) k sid (r ++ addLogsTo tr k) := by
  intro tr
  induction tr with
  | nil =>
    intro s r _ hinv
    simpa [addLogsTo] using hinv
  | cons p rest ih =>
    intro s r hall hinv
    rw [List.all_cons, Bool.and_eq_true] at hall
    have h1 := inv_step p.1 p.2 hall.1 hinv
    have h2 := ih (step s p.1 p.2) (r ++ opDelta k p.2) hall.2 h1
    rw [show runOps s (p :: rest) = runOps (step s p.1 p.2) rest from rfl]
    simpa [addLogsTo, List.append_assoc] using h2

theorem subscribe_inv (s : SessionStore) (now : Nat) (k : String) (sid : Nat)
    (hfree : noSubscriberWith s k sid = true) :
    SubscriberInv (step s now (Op.subscribe k sid)) k sid (getBufferedLogs s k) := by
  refine ⟨_, subscribe_sessions_self s now k sid, ?_, ?_⟩
  · exact ⟨{ sid := sid, received := getBufferedLogs s k },
      by simp [List.mem_append], rfl⟩
  · intro sub hm hs
    simp only [List.mem_append, List.mem_singleton] at hm
    rcases hm with hm | hm
    · exfalso
      unfold noSubscriberWith at hfree
      cases hb : s.sessions k with
      | none => rw [subsOf, hb] at hm; simp at hm
      | some b =>
        rw [hb] at hfree
        simp only [List.all_eq_true, Bool.not_eq_true', beq_eq_false_iff_ne] at hfree
        rw [subsOf_eq hb] at hm
        exact hfree sub hm hs
    · subst hm
      rfl

/-- Claim C2 (confirmed): a subscriber registering on a buffer containing
`N` records receives exactly those records, oldest first, synchronously
during `subscribe` (its delivery trace starts as the buffer contents), and
after any further operations that keep the subscription alive (no sweep, no
cancellation of this subscription) its delivery trace is exactly that
backlog followed by every record a later `addLog` appended to the session,
in order — so records added after registration arrive strictly after all
`N`. -/
theorem C2_replay_then_live (s : SessionStore) (now : Nat) (k : String)
    (sid : Nat) (tr : List (Nat × Op))
    (hfree : noSubscriberWith s k sid = true)
    (htr : (tr.all fun p => opAllowed k sid p.2) = true) :
    subscriberReceived (runOps (step s now (Op.subscribe k sid)) tr) k sid
      = some (getBufferedLogs s k ++ addLogsTo tr k) :=
  inv_received (inv_run k sid tr _ _ htr (subscribe_inv s now k sid hfree))

/-- Claim C2, witness: with buffer `[A, B]` in session `s1`, a subscriber
registered at time 2 and one later `addLog` of `C` has delivery trace
exactly `[A, B, C]`. -/
theorem C2_replay_then_live_witness :
    subscriberReceived
        (runOps
          (step (runOps (mkSessionStore {})
            [(0, Op.addLog "s1" logA), (1, Op.addLog "s1" logB)])
            2 (Op.subscribe "s1" 0))
          [(3, Op.addLog "s1" logC)])
        "s1" 0 = some [logA, logB, logC] := by
  have h := C2_replay_then_live
    (runOps (mkSessionStore {}) [(0, Op.addLog "s1" logA), (1, Op.addLog "s1" logB)])
    2 "s1" 0 [(3, Op.addLog "s1" logC)] (by decide) (by decide)
  rw [h]
  decide

/-! ### Claim C3 — synchronous fan-out in registration order -/

/-- Claim C3 (confirmed): (1) the state `addLog` returns has every
subscriber of the session replaced by the same subscriber with the new
record appended to its delivery trace — `notifyAll` is an order-preserving
map, so every currently registered (and not unsubscribed) subscriber has
received the record when `addLog` returns, and the callbacks run in the
subscriber list's order; (2) no operation ever reorders a session's
subscriber list: each step leaves it unchanged, appends the newly
registered subscriber at the end, or removes elements keeping the relative
order (a sublist) — hence the list order in (1) is registration order. -/
theorem C3_fanout_in_registration_order :
    (∀ (s : SessionStore) (now : Nat) (k : String) (log : ServerFetchLog)
        (b : SessionBuffer), s.sessions k = some b →
      ((step s now (Op.addLog k log)).sessions k).map SessionBuffer.subscribers
        = some (notifyAll b.subscribers log))
    ∧ (∀ (s : SessionStore) (now : Nat) (op : Op) (k : String),
        sidList (step s now op) k = sidList s k
        ∨ (∃ sid, op = Op.subscribe k sid
            ∧ sidList (step s now op) k = sidList s k ++ [sid])
        ∨ (sidList (step s now op) k).Sublist (sidList s k)) := by
  constructor
  · intro s now k log b hb
    rw [addLog_sessions_self s now k log, subsOf_eq hb]
    rfl
  · intro s now op k
    cases op with
    | addLog k' log =>
      left
      by_cases hk : k' = k
      · subst hk
        rw [sidList, addLog_sessions_self s now k' log]
        simp [notifyAll, sidList, subsOf]
      · rw [sidList, addLog_sessions_ne s now k' log k hk]
        rfl
    | subscribe k' sid =>
      by_cases hk : k' = k
      · subst hk
        right; left
        refine ⟨sid, rfl, ?_⟩
        rw [sidList, subscribe_sessions_self s now k' sid]
        simp [sidList, subsOf]
      · left
        rw [sidList, subscribe_sessions_ne s now k' sid k hk]
        rfl
    | unsub k' sid =>
      by_cases hk : k' = k
      · subst hk
        cases hb : s.sessions k' with
        | none =>
          left
          rw [sidList, show (step s now (Op.unsub k' sid)).sessions k' = s.sessions k' from by
            simp only [step, unsubStep]; rw [hb]; exact hb]
          rfl
        | some b =>
          right; right
          rw [sidList, unsub_sessions_self now sid hb, sidList, hb]
          exact List.Sublist.map _ (List.filter_sublist _)
      · left
        rw [sidList, unsub_sessions_ne s now k' sid k hk]
        rfl
    | getLogs k' => left; rfl
    | sweep =>
      cases hb : s.sessions k with
      | none =>
        left
        have h1 : (step s now Op.sweep).sessions k = none := by
          rw [sweep_sessions, hb]
        rw [sidList, sidList, h1, hb]
      | some b =>
        by_cases hc : s.ttlMs < now - b.lastAccess
        · right; right
          have h1 : (step s now Op.sweep).sessions k = none := by
            rw [sweep_sessions, hb]
            exact if_pos hc
          rw [sidList, h1]
          exact List.nil_sublist _
        · left
          have h1 : (step s now Op.sweep).sessions k = some b := by
            rw [sweep_sessions, hb]
            exact if_neg hc
          rw [sidList, sidList, h1, hb]

/-- Claim C3, witness: a store with one subscriber (identity 7, no
deliveries yet) on session `s1`; `addLog` of record `A` leaves that
subscriber with delivery trace `[A]`. -/
theorem C3_fanout_in_registration_order_witness :
    ((step (step (mkSessionStore {}) 0 (Op.subscribe "s1" 7)) 1
        (Op.addLog "s1" logA)).sessions "s1").map SessionBuffer.subscribers
      = some [{ sid := 7, received := [logA] }] := by
  have h := C3_fanout_in_registration_order.1
    (step (mkSessionStore {}) 0 (Op.subscribe "s1" 7)) 1 "s1" logA
    { logs := [], lastAccess := 0, subscribers := [{ sid := 7, received := [] }] }
    (by decide)
  rw [h]
  decide

/-! ### Claim C4 — getBufferedLogs is a pure read -/

/-- Claim C4, counterexample: `getBufferedLogs` does **not** update the
session's last-access timestamp.  The source reads
`this.sessions.get(sessionId)?.logs ?? []` directly without calling
`getOrCreateSession`, so after a `getBufferedLogs` call at time 5 on a
session last accessed at time 0, `lastAccess` is still 0, not 5 as the
claim requires. -/
theorem C4_getBufferedLogs_cex :
    (((step (step (mkSessionStore {}) 0 (Op.addLog "s1" logA)) 5
          (Op.getLogs "s1")).sessions "s1").map SessionBuffer.lastAccess
        = some 0)
    ∧ ¬ ((some 0 : Option Nat) = some 5) := by
  exact ⟨by decide, by decide⟩

/-- Claim C4 (amended: no access-time update): `getBufferedLogs` returns
the current buffer contents — the session's log list, or the empty sequence
for an unknown session — and leaves the entire store state unchanged: the
subscriber set, the last-access timestamp, and every other session are
untouched, because the source reads the map without writing anything. -/
theorem C4_getBufferedLogs_amended (s : SessionStore) (now : Nat) (k : String) :
    step s now (Op.getLogs k) = s
    ∧ (∀ b, s.sessions k = some b → getBufferedLogs s k = b.logs)
    ∧ (s.sessions k = none → getBufferedLogs s k = []) := by
  refine ⟨rfl, ?_, ?_⟩
  · intro b hb
    rw [getBufferedLogs, hb]
  · intro hb
    rw [getBufferedLogs, hb]

/-- Claim C4, witness: on a concrete store holding `[A]` in session `s1`,
`getBufferedLogs` returns `[A]` and the read step leaves the store equal to
itself. -/
theorem C4_getBufferedLogs_witness :
    step (step (mkSessionStore {}) 0 (Op.addLog "s1" logA)) 5 (Op.getLogs "s1")
        = step (mkSessionStore {}) 0 (Op.addLog "s1" logA)
    ∧ getBufferedLogs (step (mkSessionStore {}) 0 (Op.addLog "s1" logA)) "s1"
        = [logA] := by
  have h := C4_getBufferedLogs_amended
    (step (mkSessionStore {}) 0 (Op.addLog "s1" logA)) 5 "s1"
  refine ⟨h.1, ?_⟩
  rw [h.2.1 { logs := [logA], lastAccess := 0, subscribers := [] } (by decide)]

/-! ### Claim C5 — TTL sweep -/

/-- Claim C5, counterexample: a session "touched" only by `getBufferedLogs`
within the TTL window is still evicted.  With `ttlSeconds := 60`: `addLog`
to `s2` at t=0, `getBufferedLogs('s2')` at t=50000 (20 seconds before the
sweep, well inside the window), sweep at t=70000 — the claim says the
session survives, but the code deleted it, because `getBufferedLogs` never
refreshes `lastAccess`. -/
theorem C5_ttl_sweep_cex :
    ((runOps (mkSessionStore { ttlSeconds := some 60 })
        [(0, Op.addLog "s2" logA), (50000, Op.getLogs "s2"), (70000, Op.sweep)]).sessions
      "s2" = none)
    ∧ (70000 - 50000 ≤ (mkSessionStore { ttlSeconds := some 60 }).ttlMs) := by
  exact ⟨by decide, by decide⟩

/-- Claim C5 (amended: only `addLog` and `subscribe` refresh the access
time): for a session present with last-access time `t0`, after any further
operations none of which is a sweep or an `addLog`/`subscribe` on that
session (reads via `getBufferedLogs` and unsubscriptions are allowed — they
do not refresh `lastAccess`), a sweep at time `now` deletes the session
when `now - t0 > ttlMs` and keeps it (same `lastAccess`) when
`now - t0 ≤ ttlMs`; and a session touched by `addLog` or `subscribe` at
time `t` survives any sweep at a time `now'` with `now' - t ≤ ttlMs`. -/
theorem preserve_access_run (k : String) :
    ∀ (tr : List (Nat × Op)) (s : SessionStore) (b : SessionBuffer),
      s.sessions k = some b →
      (tr.all fun p => !(refreshesAccess k p.2) && !(isSweep p.2)) = true →
      ∃ b', (runOps s tr).sessions k = some b' ∧ b'.lastAccess = b.lastAccess := by
  intro tr
  induction tr with
  | nil =>
    intro s b hb _
    exact ⟨b, hb, rfl⟩
  | cons p rest ih =>
    intro s b hb htr
    rw [List.all_cons, Bool.and_eq_true] at htr
    obtain ⟨hp, hrest⟩ := htr
    rw [Bool.and_eq_true, Bool.not_eq_true', Bool.not_eq_true'] at hp
    have hstep : ∃ b1, (step s p.1 p.2).sessions k = some b1
        ∧ b1.lastAccess = b.lastAccess := by
      cases hop : p.2 with
      | addLog k' log =>
        have hk : k' ≠ k := by
          intro h
          rw [hop, refreshesAccess, h] at hp
          simp at hp
        exact ⟨b, by rw [addLog_sessions_ne s p.1 k' log k hk]; exact hb, rfl⟩
      | subscribe k' sid =>
        have hk : k' ≠ k := by
          intro h
          rw [hop, refreshesAccess, h] at hp
          simp at hp
        exact ⟨b, by rw [subscribe_sessions_ne s p.1 k' sid k hk]; exact hb, rfl⟩
      | unsub k' sid =>
        by_cases hk : k' = k
        · subst hk
          exact ⟨_, unsub_sessions_self p.1 sid hb, rfl⟩
        · exact ⟨b, by rw [unsub_sessions_ne s p.1 k' sid k hk]; exact hb, rfl⟩
      | getLogs k' => exact ⟨b, hb, rfl⟩
      | sweep =>
        exfalso
        rw [hop] at hp
        simp [isSweep] at hp
    obtain ⟨b1, hb1, hacc1⟩ := hstep
    obtain ⟨b', hb', hacc'⟩ := ih (step s p.1 p.2) b1 hb1 hrest
    exact ⟨b', hb', by rw [hacc', hacc1]⟩

theorem C5_ttl_sweep_amended (s : SessionStore) (k : String) (b : SessionBuffer)
    (tr : List (Nat × Op)) (now : Nat)
    (hb : s.sessions k = some b)
    (htr : (tr.all fun p => !(refreshesAccess k p.2) && !(isSweep p.2)) = true) :
    (s.ttlMs < now - b.lastAccess →
      (step (runOps s tr) now Op.sweep).sessions k = none)
    ∧ (now - b.lastAccess ≤ s.ttlMs →
      ∃ b', (step (runOps s tr) now Op.sweep).sessions k = some b'
        ∧ b'.lastAccess = b.lastAccess)
    ∧ (∀ t log now', now' - t ≤ s.ttlMs →
      ∃ b'', (step (step s t (Op.addLog k log)) now' Op.sweep).sessions k = some b'')
    ∧ (∀ t sid now', now' - t ≤ s.ttlMs →
      ∃ b'', (step (step s t (Op.subscribe k sid)) now' Op.sweep).sessions k = some b'') := by
  obtain ⟨b', hb', hacc⟩ := preserve_access_run k tr s b hb htr
  have httl : (runOps s tr).ttlMs = s.ttlMs := runOps_ttl tr s
  have hred : (step (runOps s tr) now Op.sweep).sessions k
      = if (runOps s tr).ttlMs < now - b'.lastAccess then none else some b' := by
    rw [sweep_sessions, hb']
  refine ⟨?_, ?_, ?_, ?_⟩
  · intro hexp
    rw [hred, httl, hacc]
    exact if_pos hexp
  · intro hfresh
    refine ⟨b', ?_, hacc⟩
    rw [hred, httl, hacc]
    exact if_neg (by omega)
  · intro t log now' hfresh
    have h1 : (step (step s t (Op.addLog k log)) now' Op.sweep).sessions k
        = if (step s t (Op.addLog k log)).ttlMs < now' - t then none
          else some { logs := pushBounded s.maxLogsPerSession (getBufferedLogs s k) log,
                      lastAccess := t, subscribers := notifyAll (subsOf s k) log } := by
      rw [sweep_sessions, addLog_sessions_self]
    rw [h1, step_ttl]
    exact ⟨_, if_neg (by omega)⟩
  · intro t sid now' hfresh
    have h1 : (step (step s t (Op.subscribe k sid)) now' Op.sweep).sessions k
        = if (step s t (Op.subscribe k sid)).ttlMs < now' - t then none
          else some { logs := getBufferedLogs s k, lastAccess := t,
                      subscribers := subsOf s k ++ [{ sid := sid, received := getBufferedLogs s k }] } := by
      rw [sweep_sessions, subscribe_sessions_self]
    rw [h1, step_ttl]
    exact ⟨_, if_neg (by omega)⟩

/-- Claim C5, witness: the spec's expiry scenario — one `addLog` to `s2` at
t=0, TTL 60s, sweep at t=70000: the session is gone; sweep at t=30000
instead: the session survives with `lastAccess` 0; and a fresh `addLog` at
t=70001 after the first sweep starts a brand-new buffer surviving a prompt
sweep. -/
theorem C5_ttl_sweep_witness :
    ((step (runOps (step (mkSessionStore { ttlSeconds := some 60 }) 0
        (Op.addLog "s2" logA)) []) 70000 Op.sweep).sessions "s2" = none)
    ∧ (∃ b', (step (runOps (step (mkSessionStore { ttlSeconds := some 60 }) 0
        (Op.addLog "s2" logA)) []) 30000 Op.sweep).sessions "s2" = some b'
        ∧ b'.lastAccess = 0) := by
  have h70 := C5_ttl_sweep_amended
    (step (mkSessionStore { ttlSeconds := some 60 }) 0 (Op.addLog "s2" logA))
    "s2" { logs := [logA], lastAccess := 0, subscribers := [] } [] 70000
    (by decide) (by decide)
  have h30 := C5_ttl_sweep_amended
    (step (mkSessionStore { ttlSeconds := some 60 }) 0 (Op.addLog "s2" logA))
    "s2" { logs := [logA], lastAccess := 0, subscribers := [] } [] 30000
    (by decide) (by decide)
  exact ⟨h70.1 (by decide), h30.2.1 (by decide)⟩

/-! ### Claim C6 — failure transparency -/

/-- A concrete interception context whose wrapped call rejects with message
`boom`, with the session cookie set. -/
def ctxFail : FetchCtx :=
  { cookieCtx := CookieContext.available [("__netview_session", "sess1")]
    startTime := 10
    endTime := 25
    newId := "id1"
    outcome := FetchResult.failure { message := "boom" }
    cloneText := none }

/-- Claim C6, counterexample: two rejecting calls that get no record despite
the claim's "exactly one".  First, a resolved session id with a URL on the
internal `/__netview/` path is passed through unobserved — the promise
still rejects with the same error, but **zero** records are added.  Second,
a session cookie present with an empty value: `getSessionId` resolves the
empty string, which is falsy, so the source's `if (!sessionId)` guard also
passes the call through with zero records. -/
theorem C6_failure_record_cex :
    getSessionId ctxFail.cookieCtx = some "sess1"
    ∧ (netviewFetch ctxFail (mkSessionStore {})
        (RequestInput.str "https://app.example/api/__netview/stream") none).1
      = FetchResult.failure { message := "boom" }
    ∧ (netviewFetch ctxFail (mkSessionStore {})
        (RequestInput.str "https://app.example/api/__netview/stream") none).2.2
      = []
    ∧ getSessionId (CookieContext.available [("__netview_session", "")]) = some ""
    ∧ (netviewFetch { ctxFail with cookieCtx := CookieContext.available [("__netview_session", "")] }
        (mkSessionStore {}) (RequestInput.str "https://api.example/users") none).1
      = FetchResult.failure { message := "boom" }
    ∧ (netviewFetch { ctxFail with cookieCtx := CookieContext.available [("__netview_session", "")] }
        (mkSessionStore {}) (RequestInput.str "https://api.example/users") none).2.2
      = [] := by
  exact ⟨by decide, by decide, by decide, by decide, by decide, by decide⟩

/-- Claim C6 (amended: excluding the interceptor's own internal
`/__netview/` path, which is deliberately never observed, and requiring the
resolved session id to be non-empty — the source's falsy guard
`if (!sessionId)` treats a cookie present with an empty value as no
session and passes the call through): whenever the wrapped fetch rejects,
a non-empty session id resolved, and the URL is not internal, the
interceptor returns the same failure, and exactly one record is added via
`addLog` — with status 0, the fixed status text `Error`, empty response
headers, a null response body, the error's message text, and duration
`endTime - startTime`, which is ≥ 0. -/
theorem C6_failure_transparency_amended (ctx : FetchCtx) (store : SessionStore)
    (input : RequestInput) (rinit : Option RequestInitArg) (sid : String)
    (e : JsError)
    (hsid : getSessionId ctx.cookieCtx = some sid)
    (hne : sid ≠ "")
    (hurl : containsNetviewPath (inputUrl input) = false)
    (hout : ctx.outcome = FetchResult.failure e) :
    (netviewFetch ctx store input rinit).1 = FetchResult.failure e
    ∧ ∃ log, (netviewFetch ctx store input rinit).2.2 = [(sid, log)]
        ∧ log.status = 0
        ∧ log.statusText = "Error"
        ∧ log.responseHeaders = []
        ∧ log.responseBody = none
        ∧ log.error = some e.message
        ∧ log.duration = ctx.endTime - ctx.startTime
        ∧ 0 ≤ log.duration := by
  have hkey : netviewFetch ctx store input rinit
      = (FetchResult.failure e,
         addLogStep store ctx.endTime sid (errorLogOf ctx sid input rinit e),
         [(sid, errorLogOf ctx sid input rinit e)]) := by
    unfold netviewFetch
    rw [hsid]
    simp only [hne, if_false, hurl, Bool.false_eq_true, hout]
  rw [hkey]
  exact ⟨rfl, errorLogOf ctx sid input rinit e, rfl, rfl, rfl, rfl, rfl, rfl,
    rfl, Nat.zero_le _⟩

/-- Claim C6, witness: the concrete failing context against a fresh store
and a non-internal URL — same rejection, exactly one error record with the
claimed fields and duration 15. -/
theorem C6_failure_transparency_witness :
    (netviewFetch ctxFail (mkSessionStore {})
        (RequestInput.str "https://api.example/users") none).1
      = FetchResult.failure { message := "boom" }
    ∧ ∃ log, (netviewFetch ctxFail (mkSessionStore {})
        (RequestInput.str "https://api.example/users") none).2.2
      = [("sess1", log)] ∧ log.status = 0 ∧ log.duration = 15 := by
  have h := C6_failure_transparency_amended ctxFail (mkSessionStore {})
    (RequestInput.str "https://api.example/users") none "sess1"
    { message := "boom" } (by decide) (by decide) (by decide) (by decide)
  obtain ⟨h1, log, h2, h3, _, _, _, _, h4, _⟩ := h
  exact ⟨h1, log, h2, h3, h4⟩

/-! ### Claim C7 — passthrough without a session -/

/-- Claim C7 (confirmed): when session resolution yields nothing — the
cookie is absent or `cookies()` itself threw — the wrapped fetch returns
exactly what the unwrapped primitive returns (same success value, same
rejection), the store is untouched, and no record is added to any session
buffer. -/
theorem C7_no_session_passthrough (ctx : FetchCtx) (store : SessionStore)
    (input : RequestInput) (rinit : Option RequestInitArg)
    (h : getSessionId ctx.cookieCtx = none) :
    netviewFetch ctx store input rinit = (originalFetch ctx, store, []) := by
  unfold netviewFetch
  rw [h]

/-- Claim C7, witness: a resolution failure (`cookies()` throwing) with a
rejecting underlying call — the wrapped call is observably the unwrapped
one and the log list is empty. -/
theorem C7_no_session_passthrough_witness :
    netviewFetch { ctxFail with cookieCtx := CookieContext.unavailable }
        (mkSessionStore {}) (RequestInput.str "https://api.example/users") none
      = (originalFetch { ctxFail with cookieCtx := CookieContext.unavailable },
         mkSessionStore {}, []) :=
  C7_no_session_passthrough _ _ _ _ (by decide)

/-! ### Claim C8 — request-body snapshot -/

/-- Claim C8, counterexample: the claim says a `FormData` body is serialized
as `key: value` lines; the source instead records the fixed sentinel
`[FormData]` (`requestBody = '[FormData]'`).  Also, an empty string body is
recorded as absent (`null`), not as the raw string, because the source
guards with the JS-truthiness test `if (init?.body)`. -/
theorem C8_request_body_cex :
    requestBodySnapshot (some (BodyVariant.formData [("a", "1")])) = some "[FormData]"
    ∧ ¬ (requestBodySnapshot (some (BodyVariant.formData [("a", "1")])) = some "a: 1")
    ∧ requestBodySnapshot (some (BodyVariant.str "")) = none := by
  exact ⟨by decide, by decide, by decide⟩

/-- Claim C8 (amended: `FormData` yields the `[FormData]` sentinel, and an
empty string body is treated as absent): the recorded request-body snapshot
is the raw string for a nonempty string body, `none` for an empty string or
missing body, the `[FormData]` sentinel for form data, the stringified
parameters for `URLSearchParams`, and `[Binary Data]` for anything else;
and every record `netviewFetch` hands to `addLog` carries exactly this
snapshot of its `init.body`. -/
theorem C8_request_body_amended :
    (∀ s : String, s ≠ "" → requestBodySnapshot (some (BodyVariant.str s)) = some s)
    ∧ requestBodySnapshot (some (BodyVariant.str "")) = none
    ∧ (∀ entries, requestBodySnapshot (some (BodyVariant.formData entries)) = some "[FormData]")
    ∧ (∀ q, requestBodySnapshot (some (BodyVariant.urlSearchParams q)) = some q)
    ∧ requestBodySnapshot (some BodyVariant.binary) = some "[Binary Data]"
    ∧ requestBodySnapshot none = none
    ∧ (∀ (ctx : FetchCtx) (store : SessionStore) (input : RequestInput)
        (rinit : Option RequestInitArg) (entry : String × ServerFetchLog),
        entry ∈ (netviewFetch ctx store input rinit).2.2 →
        entry.2.requestBody = requestBodySnapshot (rinit.bind RequestInitArg.body)) := by
  refine ⟨?_, rfl, fun _ => rfl, fun _ => rfl, rfl, rfl, ?_⟩
  · intro s hs
    simp [requestBodySnapshot, hs]
  · intro ctx store input rinit entry hmem
    unfold netviewFetch at hmem
    cases hsid : getSessionId ctx.cookieCtx with
    | none => rw [hsid] at hmem; cases hmem
    | some sid =>
      rw [hsid] at hmem
      by_cases hempty : sid = ""
      · simp [hempty] at hmem
      · simp only [if_neg hempty] at hmem
        by_cases hurl : containsNetviewPath (inputUrl input) = true
        · simp only [hurl, if_true] at hmem
          cases hmem
        · rw [Bool.not_eq_true] at hurl
          simp only [hurl, Bool.false_eq_true, if_false] at hmem
          cases hout : ctx.outcome with
          | success resp =>
            rw [hout] at hmem
            simp only [List.mem_singleton] at hmem
            subst hmem
            rfl
          | failure e =>
            rw [hout] at hmem
            simp only [List.mem_singleton] at hmem
            subst hmem
            rfl

/-- Claim C8, witness: concrete snapshots — a nonempty string body kept
as-is, and form data recorded as the `[FormData]` sentinel. -/
theorem C8_request_body_witness :
    requestBodySnapshot (some (BodyVariant.str "x=1")) = some "x=1"
    ∧ requestBodySnapshot (some (BodyVariant.formData [("k", "v")])) = some "[FormData]" :=
  ⟨C8_request_body_amended.1 "x=1" (by decide),
   C8_request_body_amended.2.2.1 [("k", "v")]⟩

/-! ### Claim C9 — uninitialized store vs unknown session -/

/-- Claim C9, counterexample: a stream request *carrying* a `session`
parameter whose value is the empty string (`?session=`) against a
never-initialized store does not get the claimed error frame and close —
`searchParams.get` returns the empty string, which is falsy, so the
source's `if (!sessionId)` guard answers 400 with no stream at all. -/
theorem C9_empty_session_cex :
    streamGET none (some "") 5 3
      = StreamResponse.badRequest 400 "Missing session parameter"
    ∧ ∀ st : StreamStart, streamGET none (some "") 5 3 ≠ StreamResponse.stream st := by
  constructor
  · rfl
  · intro st h
    rw [show streamGET none (some "") 5 3
        = StreamResponse.badRequest 400 "Missing session parameter" from rfl] at h
    exact StreamResponse.noConfusion h

/-- Claim C9 (amended: the session parameter must be non-empty — the
source's falsy guard `if (!sessionId)` treats an empty `session` query
value like a missing one and answers 400 with no stream): a stream request
carrying a non-empty session parameter against a never-initialized store
makes the handler emit exactly one structured error frame (after the
`: connected` comment) and close the channel — the `getStore` throw is
caught inside `start`, so the handler still returns a normal stream
response and no exception reaches the transport.  By contrast, an unknown
session id on an initialized store is not an error: the backlog is empty
(zero error frames, zero data frames), the channel stays open, and a live
subscription is registered (its delivery trace starts empty), ready to
receive future records. -/
theorem C9_uninitialized_error_frame_amended (sid : String) (now subId : Nat)
    (hsid : sid ≠ "") :
    (∃ st : StreamStart,
      streamGET none (some sid) now subId = StreamResponse.stream st
      ∧ st.frames = [Frame.comment "connected",
          Frame.data (FrameData.errorMsg "NetView not initialized")]
      ∧ errorFrameCount st.frames = 1
      ∧ st.closed = true)
    ∧ (∀ store : SessionStore, store.sessions sid = none →
      ∃ st : StreamStart,
        streamGET (some store) (some sid) now subId = StreamResponse.stream st
        ∧ st.frames = [Frame.comment "connected"]
        ∧ errorFrameCount st.frames = 0
        ∧ st.closed = false
        ∧ ∃ store', st.storeAfter = some store'
            ∧ subscriberReceived store' sid subId = some []) := by
  constructor
  · have hred : streamGET none (some sid) now subId
        = StreamResponse.stream
          { frames := [Frame.comment "connected",
              Frame.data (FrameData.errorMsg "NetView not initialized")]
            closed := true
            storeAfter := none } := by
      simp only [streamGET, getStore]
      rw [if_neg hsid]
    exact ⟨_, hred, rfl, rfl, rfl⟩
  · intro store hb
    have hlogs : getBufferedLogs store sid = [] := by
      rw [getBufferedLogs, hb]
    have hred2 : streamGET (some store) (some sid) now subId
        = StreamResponse.stream
          { frames := Frame.comment "connected" ::
              (getBufferedLogs store sid).map (fun l => Frame.data (FrameData.log l))
            closed := false
            storeAfter := some (subscribeStep store now sid subId) } := by
      simp only [streamGET, getStore]
      rw [if_neg hsid]
    refine ⟨_, hred2, ?_, ?_, rfl, ?_⟩
    · rw [hlogs]
      rfl
    · rw [hlogs]
      rfl
    · refine ⟨_, rfl, ?_⟩
      rw [subscriberReceived,
        show (subscribeStep store now sid subId).sessions sid
            = some { logs := getBufferedLogs store sid, lastAccess := now,
                     subscribers := subsOf store sid
                       ++ [{ sid := subId, received := getBufferedLogs store sid }] }
          from subscribe_sessions_self store now sid subId]
      rw [show subsOf store sid = [] from by rw [subsOf, hb]; rfl]
      simp [List.find?, hlogs]

/-- Claim C9, witness: against a never-initialized store, session `abc`:
one error frame then close; against a freshly initialized store with no
sessions: no error frame, open channel, live empty subscription. -/
theorem C9_uninitialized_error_frame_witness :
    (∃ st : StreamStart,
      streamGET none (some "abc") 5 3 = StreamResponse.stream st
      ∧ st.frames = [Frame.comment "connected",
          Frame.data (FrameData.errorMsg "NetView not initialized")]
      ∧ errorFrameCount st.frames = 1
      ∧ st.closed = true)
    ∧ (∃ st : StreamStart,
      streamGET (some (mkSessionStore {})) (some "abc") 5 3 = StreamResponse.stream st
      ∧ st.frames = [Frame.comment "connected"]
      ∧ errorFrameCount st.frames = 0
      ∧ st.closed = false
      ∧ ∃ store', st.storeAfter = some store'
          ∧ subscriberReceived store' "abc" 3 = some []) :=
  ⟨(C9_uninitialized_error_frame_amended "abc" 5 3 (by decide)).1,
   (C9_uninitialized_error_frame_amended "abc" 5 3 (by decide)).2
     (mkSessionStore {}) rfl⟩

/-! ### Claim C10 — server-origin records are always completed -/

/-- Claim C10 (confirmed): every record the aggregator's server-stream
handler appends is a server-origin record in state `completed`: a decoded
frame whose `error` field is truthy is discarded before conversion, and the
conversion's `error` branch fires exactly when the `error` field is truthy
— so no appended server-origin record can be in state `error`, and the
`state: 'error'` branch is unreachable for appended records. -/
theorem C10_server_records_completed :
    (∀ (requests : List NetworkRequest) (log : ServerFetchLog)
        (r : NetworkRequest), r ∈ handleServerFrame requests log →
      r ∈ requests
      ∨ (r.source = RequestSource.server ∧ r.state = RequestState.completed))
    ∧ (∀ (requests : List NetworkRequest) (log : ServerFetchLog),
        errTruthy log.error = true → handleServerFrame requests log = requests)
    ∧ (∀ log : ServerFetchLog,
        (toNetworkRequest log).state = RequestState.error →
        errTruthy log.error = true) := by
  refine ⟨?_, ?_, ?_⟩
  · intro requests log r hmem
    unfold handleServerFrame at hmem
    by_cases he : errTruthy log.error = true
    · rw [if_pos he] at hmem
      exact Or.inl hmem
    · rw [Bool.not_eq_true] at he
      rw [if_neg (by rw [he]; simp)] at hmem
      rcases List.mem_append.mp hmem with h | h
      · exact Or.inl h
      · right
        rw [List.mem_singleton] at h
        subst h
        constructor
        · rfl
        · unfold toNetworkRequest
          simp [he]
  · intro requests log he
    unfold handleServerFrame
    rw [if_pos he]
  · intro log hstate
    by_contra he
    rw [Bool.not_eq_true] at he
    unfold toNetworkRequest at hstate
    simp [he] at hstate

/-- Claim C10, witness: a frame carrying the failed-call record (with a
truthy error message) is discarded — the merged collection is unchanged —
and a successful record converts to state `completed`. -/
theorem C10_server_records_completed_witness :
    handleServerFrame [] logErr = []
    ∧ (toNetworkRequest logA ∈ ([] : List NetworkRequest)
        ∨ ((toNetworkRequest logA).source = RequestSource.server
            ∧ (toNetworkRequest logA).state = RequestState.completed)) :=
  ⟨C10_server_records_completed.2.1 [] logErr (by decide),
   C10_server_records_completed.1 [] logA (toNetworkRequest logA) (by decide)⟩

end NetView
